import Mathlib

/-! # qr-gen-cli: verification of the finder-pattern masking and compositing routine

Shallow embedding of `src/qr_gen_cli/main.py`. Machine integers of the
source are Python `int`s, embedded as `ℤ` (coordinates, sizes, scale,
border) and `ℕ` (mask/channel values). Images and masks are embedded as
structures carrying their pixel dimensions plus a pixel-content function;
PIL operations used by the program (`Image.new`, `ImageDraw.rectangle`
fill, `Image.composite` with a binary `L` mask, `Image.save`) are embedded
pointwise with their documented semantics. Fallible operations (Python
`int(s, 16)`, `Image.save`) return `Option`.
-/

namespace QrGenCli

/-! ## Hex colour parsing (`hex_to_rgb`, main.py lines 18–21)

`hex_to_rgb` does `hex_color.lstrip('#')` and then
`tuple(int(hex_color[i:i+2], 16) for i in (0, 2, 4))`.  Strings are
embedded as `List Char`.  Python's `int(s, 16)` is embedded faithfully:
it strips ASCII whitespace, accepts an optional sign, an optional
`0x`/`0X` prefix (optionally followed by one underscore), and then a
non-empty run of hex digits with single underscores allowed between
digits; anything else raises `ValueError`, embedded as `none`. -/

/-- Value of a single hexadecimal digit (`0-9`, `a-f`, `A-F`), by code point. -/
def hexDigit? (c : Char) : Option ℕ :=
  let n := c.toNat
  if 48 ≤ n ∧ n ≤ 57 then some (n - 48)
  else if 97 ≤ n ∧ n ≤ 102 then some (n - 87)
  else if 65 ≤ n ∧ n ≤ 70 then some (n - 55)
  else none

/-- ASCII whitespace stripped by Python's `str.strip()` / `int()`. -/
def isPySpace (c : Char) : Bool :=
  decide (c.toNat = 32 ∨ c.toNat = 9 ∨ c.toNat = 10 ∨ c.toNat = 13 ∨
    c.toNat = 11 ∨ c.toNat = 12)

/-- Strip leading and trailing ASCII whitespace (Python `str.strip()`). -/
def stripWs (s : List Char) : List Char :=
  ((s.dropWhile isPySpace).reverse.dropWhile isPySpace).reverse

/-- Continue a hex-digit run after its first digit, with single underscores
allowed between digits (Python numeric-literal grouping). `acc` is the value
of the digits consumed so far. -/
def hexRunAux : List Char → ℕ → Option ℕ
  | [], acc => some acc
  | c :: rest, acc =>
    if c = '_' then
      match rest with
      | [] => none
      | c2 :: rest2 =>
        match hexDigit? c2 with
        | some d => hexRunAux rest2 (acc * 16 + d)
        | none => none
    else
      match hexDigit? c with
      | some d => hexRunAux rest (acc * 16 + d)
      | none => none

/-- A non-empty run of hex digits (first character must be a digit). -/
def parseHexRun (s : List Char) : Option ℕ :=
  match s with
  | [] => none
  | c :: rest =>
    match hexDigit? c with
    | some d => hexRunAux rest d
    | none => none

/-- Hex digits after an (already consumed) `0x` prefix; Python allows one
underscore directly after the prefix, as in `0x_1f`. -/
def parseAfterOx : List Char → Option ℕ
  | '_' :: rest => parseHexRun rest
  | s => parseHexRun s

/-- Digits of a base-16 `int()` literal, with optional `0x`/`0X` prefix. -/
def parseHexBody (s : List Char) : Option ℕ :=
  match s with
  | c0 :: c1 :: rest =>
    if c0 = '0' ∧ (c1 = 'x' ∨ c1 = 'X') then parseAfterOx rest
    else parseHexRun s
  | _ => parseHexRun s

/-- Sign handling of `int(s, 16)` on a whitespace-stripped string (an empty
string has no digit run, so it fails below). -/
def pyIntHexCore (s : List Char) : Option ℤ :=
  if s.head? = some '+' then (parseHexBody s.tail).map Int.ofNat
  else if s.head? = some '-' then (parseHexBody s.tail).map (fun n => -Int.ofNat n)
  else (parseHexBody s).map Int.ofNat

/-- Python `int(s, 16)`: `some` its value, `none` for `ValueError`. -/
def pyIntHex (s : List Char) : Option ℤ :=
  pyIntHexCore (stripWs s)

/-- Python slice `l[i:j]` for `0 ≤ i ≤ j` (clipping at the end of the list). -/
def pySlice (l : List Char) (i j : ℕ) : List Char :=
  (l.drop i).take (j - i)

/-- `hex_to_rgb` (main.py lines 18–21): strip every leading `'#'`, then read
the three two-character slices at offsets 0, 2 and 4 as base-16 integers.
A `ValueError` from any slice (embedded `none`) propagates out of the
`tuple(...)` generator, so the whole call fails. -/
def hex_to_rgb (s : List Char) : Option (ℤ × ℤ × ℤ) :=
  let h := s.dropWhile (fun c => c == '#')
  match pyIntHex (pySlice h 0 2), pyIntHex (pySlice h 2 4), pyIntHex (pySlice h 4 6) with
  | some r, some g, some b => some (r, g, b)
  | _, _, _ => none

/-! ## Images, masks, rectangles

PIL images are embedded as a pixel-dimension pair plus an RGB content
function; `L`-mode masks likewise with a `ℕ` channel. `img.size[0]` is
`width`, `img.size[1]` is `height`. `ImageDraw.rectangle((x1,y1,x2,y2),
fill=255)` fills the pixels with `x1 ≤ x ≤ x2` and `y1 ≤ y ≤ y2`
(PIL's second corner is inclusive), clipped to the image; the embedded
mask-value function records the unclipped formula, which agrees with the
drawn mask at every in-image coordinate. -/

/-- An RGB raster image: pixel dimensions plus content. -/
structure Img where
  width : ℤ
  height : ℤ
  px : ℤ → ℤ → ℕ × ℕ × ℕ

/-- A single-channel (`L` mode) mask image. -/
structure Mask where
  width : ℤ
  height : ℤ
  val : ℤ → ℤ → ℕ

/-- A PIL rectangle `(x1, y1, x2, y2)`. -/
structure Rect where
  x1 : ℤ
  y1 : ℤ
  x2 : ℤ
  y2 : ℤ
deriving DecidableEq

/-- Membership in a PIL-filled rectangle: both corners inclusive. -/
def Rect.Mem (r : Rect) (x y : ℤ) : Prop :=
  r.x1 ≤ x ∧ x ≤ r.x2 ∧ r.y1 ≤ y ∧ y ≤ r.y2

instance (r : Rect) (x y : ℤ) : Decidable (r.Mem x y) := by
  unfold Rect.Mem; infer_instance

/-- Membership in the interior of a rectangle (all boundary points excluded). -/
def Rect.MemInterior (r : Rect) (x y : ℤ) : Prop :=
  r.x1 < x ∧ x < r.x2 ∧ r.y1 < y ∧ y < r.y2

instance (r : Rect) (x y : ℤ) : Decidable (r.MemInterior x y) := by
  unfold Rect.MemInterior; infer_instance

/-- The three finder-pattern corners of a QR symbol. -/
inductive Corner
  | tl
  | tr
  | bl
deriving DecidableEq

/-! ## Mask geometry (`style_inner_eyes` lines 23–97, `style_outer_eyes` lines 99–119)

Both builders read only `img.size` (`img_size = img.size[0]`), create a
fresh `L` mask of the same size filled with 0, and draw three filled
rectangles. The rectangle coordinates computed by each function are
factored out per corner, with exactly the source's formulas. -/

/-- The rectangle drawn by `style_inner_eyes` for each corner
(main.py lines 55–95): `inner_offset = 4 * scale`, and for the top-right
and bottom-left corners the code anchors at
`img_size - border_px - finder_px` and applies the same relative
`(inner_offset, inner_offset)`–`(finder_px, finder_px)` offsets. -/
def inner_eye_rect (img_size scale border : ℤ) : Corner → Rect :=
  let finder_px := 7 * scale
  let border_px := border * scale
  let inner_offset := 4 * scale
  fun c =>
    match c with
    | .tl =>
      ⟨inner_offset + border_px, inner_offset + border_px,
        finder_px + border_px, finder_px + border_px⟩
    | .tr =>
      let tr_corner_x := img_size - border_px - finder_px
      let tr_corner_y := border_px
      ⟨tr_corner_x + inner_offset, tr_corner_y + inner_offset,
        tr_corner_x + finder_px, tr_corner_y + finder_px⟩
    | .bl =>
      let bl_corner_x := border_px
      let bl_corner_y := img_size - border_px - finder_px
      ⟨bl_corner_x + inner_offset, bl_corner_y + inner_offset,
        bl_corner_x + finder_px, bl_corner_y + finder_px⟩

/-- The rectangle drawn by `style_outer_eyes` for each corner
(main.py lines 108–117). -/
def outer_eye_rect (img_size scale border : ℤ) : Corner → Rect :=
  let finder_px := 7 * scale
  let border_px := border * scale
  fun c =>
    match c with
    | .tl => ⟨border_px, border_px, border_px + finder_px, border_px + finder_px⟩
    | .tr =>
      let tr_x := img_size - border_px - finder_px
      ⟨tr_x, border_px, tr_x + finder_px, border_px + finder_px⟩
    | .bl =>
      let bl_y := img_size - border_px - finder_px
      ⟨border_px, bl_y, border_px + finder_px, bl_y + finder_px⟩

/-- `style_inner_eyes(img, scale, border)` (main.py lines 23–97): a fresh
mask of `img.size`, zero background, with the three inner-eye rectangles
filled to 255. -/
def style_inner_eyes (img : Img) (scale border : ℤ) : Mask :=
  let img_size := img.width
  { width := img.width, height := img.height,
    val := fun x y =>
      if (inner_eye_rect img_size scale border .tl).Mem x y ∨
          (inner_eye_rect img_size scale border .tr).Mem x y ∨
          (inner_eye_rect img_size scale border .bl).Mem x y
      then 255 else 0 }

/-- `style_outer_eyes(img, scale, border)` (main.py lines 99–119): a fresh
mask of `img.size`, zero background, with the three 7×7-module finder
rectangles filled to 255. -/
def style_outer_eyes (img : Img) (scale border : ℤ) : Mask :=
  let img_size := img.width
  { width := img.width, height := img.height,
    val := fun x y =>
      if (outer_eye_rect img_size scale border .tl).Mem x y ∨
          (outer_eye_rect img_size scale border .tr).Mem x y ∨
          (outer_eye_rect img_size scale border .bl).Mem x y
      then 255 else 0 }

/-! ## Compositing (`generate`, main.py lines 196–200) -/

/-- `Image.composite(image1, image2, mask)` on an `L` mask whose values are
only 0 or 255 (as both builders above produce): the result takes `image1`
where the mask is 255 and `image2` where it is 0. -/
def composite (image1 image2 : Img) (mask : Mask) : Img :=
  { width := image1.width, height := image1.height,
    px := fun x y => if mask.val x y = 255 then image1.px x y else image2.px x y }

/-- `intermediate_img = Image.composite(qr_inner_eyes_img, qr_img, inner_eye_mask)`
(main.py line 199), with `inner_eye_mask = style_inner_eyes(qr_img, scale, border)`. -/
def intermediate_img (qr_inner_eyes_img qr_img : Img) (scale border : ℤ) : Img :=
  composite qr_inner_eyes_img qr_img (style_inner_eyes qr_img scale border)

/-- `final_image = Image.composite(qr_outer_eyes_img, intermediate_img, outer_eye_mask)`
(main.py line 200), with `outer_eye_mask = style_outer_eyes(qr_img, scale, border)`. -/
def final_image (qr_inner_eyes_img qr_outer_eyes_img qr_img : Img) (scale border : ℤ) : Img :=
  composite qr_outer_eyes_img (intermediate_img qr_inner_eyes_img qr_img scale border)
    (style_outer_eyes qr_img scale border)

/-! ## Spec-side geometry (§4.1 of the specification)

These definitions follow the specification's words, to be compared with
the source-derived `inner_eye_rect` / `outer_eye_rect` above:
`finder_px = 7*scale`, `border_px = border*scale`, `inner_offset = 4*scale`;
outer rectangle `(ax, ay, ax+finder_px, ay+finder_px)` at the three corner
anchors; inner rectangle `(ax+inner_offset, ay+inner_offset, ax+finder_px,
ay+finder_px)` at the same anchors. -/

/-- Spec §4.1 corner anchors: top-left `(border_px, border_px)`, top-right
`(img_size - border_px - finder_px, border_px)`, bottom-left
`(border_px, img_size - border_px - finder_px)`. -/
def spec_outer_anchor (img_size scale border : ℤ) : Corner → ℤ × ℤ
  | .tl => (border * scale, border * scale)
  | .tr => (img_size - border * scale - 7 * scale, border * scale)
  | .bl => (border * scale, img_size - border * scale - 7 * scale)

/-- Spec §4.1 outer-eye rectangle `(ax, ay, ax + finder_px, ay + finder_px)`. -/
def spec_outer_rect (img_size scale border : ℤ) (c : Corner) : Rect :=
  let a := spec_outer_anchor img_size scale border c
  ⟨a.1, a.2, a.1 + 7 * scale, a.2 + 7 * scale⟩

/-- Spec §4.1 inner-eye rectangle
`(ax + inner_offset, ay + inner_offset, ax + finder_px, ay + finder_px)`. -/
def spec_inner_rect (img_size scale border : ℤ) (c : Corner) : Rect :=
  let a := spec_outer_anchor img_size scale border c
  ⟨a.1 + 4 * scale, a.2 + 4 * scale, a.1 + 7 * scale, a.2 + 7 * scale⟩

/-! ## Command-line control flow (`generate`, main.py lines 121–203)

The decorated `generate` command is embedded as a function from its
parse-relevant inputs to the observable process outcome. Library semantics
encoded here: `click.Path(exists=True)` on `--logo` rejects a nonexistent
path with a usage error **before** the function body runs, and click exits
with status 2; a normal `return` from the command (the `except ValueError`
branch, lines 138–140) makes the process exit with status 0; an uncaught
exception (e.g. from `final_image.save`) aborts the process with a
traceback and exit status 1. Rendering (lines 156–200) happens only after
both colours parse. -/

/-- The message `generate` echoes to stderr on a colour `ValueError`
(main.py line 139). -/
def invalidColorMsg : String := "Error: Invalid hex color format. Use #RRGGBB."

/-- Usage error produced by `click.Path(exists=True)` for a missing
`--logo` path (main.py line 123). The exact wording is generated by click;
only its distinctness matters here. -/
def logoNotFoundMsg : String := "Invalid value for '--logo' / '-l': path does not exist."

/-- Diagnostic of the uncaught exception raised when `final_image.save`
fails (main.py line 202): a Python traceback. -/
def saveFailureMsg : String := "Traceback: uncaught exception from final_image.save"

/-- Observable outcome of one `generate` invocation. -/
structure GenResult where
  exitCode : ℕ
  rendered : Bool
  errMsg : Option String
deriving DecidableEq

/-- Control flow of `generate` (main.py lines 129–203). `logo` is `none`
when the option is absent, `some exists` when a path is supplied;
`saveOk` abstracts whether `final_image.save(output)` succeeds. -/
def generateModel (primary secondary : List Char) (logo : Option Bool)
    (saveOk : Bool) : GenResult :=
  match logo with
  | some false => { exitCode := 2, rendered := false, errMsg := some logoNotFoundMsg }
  | _ =>
    match hex_to_rgb primary, hex_to_rgb secondary with
    | some _, some _ =>
      if saveOk then { exitCode := 0, rendered := true, errMsg := none }
      else { exitCode := 1, rendered := true, errMsg := some saveFailureMsg }
    | _, _ => { exitCode := 0, rendered := false, errMsg := some invalidColorMsg }

/-! ## Filesystem effect of `generate` (main.py line 202)

`generate` touches the filesystem exactly once: `final_image.save(output)`.
No directory is ever created (`os` is imported but `os.makedirs` is never
called). PIL's `Image.save` opens the path for writing, which fails with
`FileNotFoundError` when the parent directory does not exist; it never
creates directories. Paths are embedded as component lists; a path's
parent is `dropLast`, and an empty parent means the current directory. -/

/-- Filesystem state: the set of existing directories and of files. -/
structure FsState where
  dirs : List (List String)
  files : List (List String)
deriving DecidableEq

/-- `PIL.Image.save(path)`: writes the file if the parent directory
exists, fails (`none`) otherwise; creates no directory. -/
def pil_save (st : FsState) (path : List String) : Option FsState :=
  if path.dropLast = [] ∨ path.dropLast ∈ st.dirs then
    some { st with files := path :: st.files }
  else none

/-- The complete filesystem interaction of `generate`: the single
`final_image.save(output)` call of main.py line 202. -/
def generate_fs (st : FsState) (output : List String) : Option FsState :=
  pil_save st output

/-! ## Helper lemmas -/

/-- A character with a hex-digit value lies in one of the three digit ranges. -/
theorem hexDigit_ranges {c : Char} {v : ℕ} (h : hexDigit? c = some v) :
    (48 ≤ c.toNat ∧ c.toNat ≤ 57) ∨ (97 ≤ c.toNat ∧ c.toNat ≤ 102) ∨
      (65 ≤ c.toNat ∧ c.toNat ≤ 70) := by
  simp only [hexDigit?] at h
  split_ifs at h with h1 h2 h3 <;> tauto

/-- A hex digit is distinct from any non-hex-digit character. -/
theorem hexDigit_ne {c : Char} {v : ℕ} (h : hexDigit? c = some v) {d : Char}
    (hd : hexDigit? d = none) : c ≠ d := by
  intro e
  rw [e, hd] at h
  cases h

/-- Hex digits are not ASCII whitespace. -/
theorem hexDigit_not_space {c : Char} {v : ℕ} (h : hexDigit? c = some v) :
    isPySpace c = false := by
  rcases hexDigit_ranges h with ⟨h1, h2⟩ | ⟨h1, h2⟩ | ⟨h1, h2⟩ <;>
    · unfold isPySpace
      simp only [decide_eq_false_iff_not]
      push_neg
      omega

/-- `int(s, 16)` on a two-hex-digit string: the value of the digit pair. -/
theorem pyIntHex_pair {a b : Char} {va vb : ℕ} (ha : hexDigit? a = some va)
    (hb : hexDigit? b = some vb) : pyIntHex [a, b] = some ((16 * va + vb : ℕ) : ℤ) := by
  have hsa := hexDigit_not_space ha
  have hsb := hexDigit_not_space hb
  have strip : stripWs [a, b] = [a, b] := by
    simp [stripWs, List.dropWhile, hsa, hsb]
  have haP : a ≠ '+' := hexDigit_ne ha (by decide)
  have haM : a ≠ '-' := hexDigit_ne ha (by decide)
  have hbx : b ≠ 'x' := hexDigit_ne hb (by decide)
  have hbX : b ≠ 'X' := hexDigit_ne hb (by decide)
  have hbu : b ≠ '_' := hexDigit_ne hb (by decide)
  have hbody : parseHexBody [a, b] = some (va * 16 + vb) := by
    have hnp : ¬ (a = '0' ∧ (b = 'x' ∨ b = 'X')) := by
      rintro ⟨-, hx | hX⟩
      · exact hbx hx
      · exact hbX hX
    simp only [parseHexBody, if_neg hnp, parseHexRun, ha, hexRunAux, if_neg hbu, hb]
  unfold pyIntHex
  rw [strip]
  unfold pyIntHexCore
  rw [if_neg (by simp [haP]), if_neg (by simp [haM]), hbody, Nat.mul_comm va 16]
  simp

/-- `lstrip('#')` removes any all-`'#'` prefix. -/
theorem dropWhile_hash_of_all (pre l : List Char) (h : ∀ c ∈ pre, c = '#') :
    (pre ++ l).dropWhile (fun c => c == '#') = l.dropWhile (fun c => c == '#') := by
  induction pre with
  | nil => rfl
  | cons c cs ih =>
    have hc : c = '#' := h c (by simp)
    subst hc
    simpa [List.dropWhile] using ih fun d hd => h d (List.mem_cons_of_mem _ hd)

/-- `hex_to_rgb` on any string made of leading `'#'`s, six hex digits, and an
arbitrary tail: the digit pairs are decoded and the tail is ignored. -/
theorem hex_to_rgb_general (pre tail : List Char) (c1 c2 c3 c4 c5 c6 : Char)
    (v1 v2 v3 v4 v5 v6 : ℕ) (hpre : ∀ c ∈ pre, c = '#')
    (h1 : hexDigit? c1 = some v1) (h2 : hexDigit? c2 = some v2)
    (h3 : hexDigit? c3 = some v3) (h4 : hexDigit? c4 = some v4)
    (h5 : hexDigit? c5 = some v5) (h6 : hexDigit? c6 = some v6) :
    hex_to_rgb (pre ++ c1 :: c2 :: c3 :: c4 :: c5 :: c6 :: tail) =
      some (((16 * v1 + v2 : ℕ) : ℤ), ((16 * v3 + v4 : ℕ) : ℤ), ((16 * v5 + v6 : ℕ) : ℤ)) := by
  have hne : (c1 == '#') = false := by
    simpa using hexDigit_ne h1 (d := '#') (by decide)
  have hdrop : (pre ++ c1 :: c2 :: c3 :: c4 :: c5 :: c6 :: tail).dropWhile (fun c => c == '#') =
      c1 :: c2 :: c3 :: c4 :: c5 :: c6 :: tail := by
    rw [dropWhile_hash_of_all pre _ hpre]
    simp [List.dropWhile, hne]
  have s1 : pySlice (c1 :: c2 :: c3 :: c4 :: c5 :: c6 :: tail) 0 2 = [c1, c2] := rfl
  have s2 : pySlice (c1 :: c2 :: c3 :: c4 :: c5 :: c6 :: tail) 2 4 = [c3, c4] := rfl
  have s3 : pySlice (c1 :: c2 :: c3 :: c4 :: c5 :: c6 :: tail) 4 6 = [c5, c6] := rfl
  simp only [hex_to_rgb, hdrop, s1, s2, s3, pyIntHex_pair h1 h2, pyIntHex_pair h3 h4,
    pyIntHex_pair h5 h6]

/-- A property holds for some finder corner iff it holds at one of the three. -/
theorem corner_exists {p : Corner → Prop} : (∃ c, p c) ↔ p .tl ∨ p .tr ∨ p .bl := by
  constructor
  · rintro ⟨c, hc⟩
    cases c <;> tauto
  · rintro (h | h | h) <;> exact ⟨_, h⟩

/-- The inner-eye rectangles drawn by the code coincide, corner by corner,
with the spec §4.1 inner rectangles. -/
theorem inner_eye_rect_eq_spec (img_size scale border : ℤ) (c : Corner) :
    inner_eye_rect img_size scale border c = spec_inner_rect img_size scale border c := by
  cases c <;> simp only [inner_eye_rect, spec_inner_rect, spec_outer_anchor, Rect.mk.injEq] <;>
    and_intros <;> ring

/-- The outer-eye rectangles drawn by the code coincide, corner by corner,
with the spec §4.1 outer rectangles. -/
theorem outer_eye_rect_eq_spec (img_size scale border : ℤ) (c : Corner) :
    outer_eye_rect img_size scale border c = spec_outer_rect img_size scale border c := by
  cases c <;> simp only [outer_eye_rect, spec_outer_rect, spec_outer_anchor, Rect.mk.injEq] <;>
    and_intros <;> ring

/-! ## Claim theorems -/

/-- C1: for every image, `scale > 0` and `border ≥ 0`, the inner-eye mask
built by `style_inner_eyes` is 255 exactly at the in-image pixels of the
three rectangles `(ax + 4·scale, ay + 4·scale, ax + 7·scale, ay + 7·scale)`
— the bottom-right 3×3-module sub-square of the 7×7 finder box at each
corner's outer anchor `(ax, ay)`, the same relative offsets at all three
corners — and 0 at every other in-image pixel. -/
theorem c1_inner_eye_mask (img : Img) (scale border : ℤ) (hs : 0 < scale)
    (hb : 0 ≤ border) (x y : ℤ) (hx0 : 0 ≤ x) (hx : x < img.width)
    (hy0 : 0 ≤ y) (hy : y < img.height) :
    ((style_inner_eyes img scale border).val x y = 255 ↔
      ∃ c : Corner, (spec_inner_rect img.width scale border c).Mem x y) ∧
    ((¬ ∃ c : Corner, (spec_inner_rect img.width scale border c).Mem x y) →
      (style_inner_eyes img scale border).val x y = 0) := by
  have hval : (style_inner_eyes img scale border).val x y =
      if (spec_inner_rect img.width scale border .tl).Mem x y ∨
          (spec_inner_rect img.width scale border .tr).Mem x y ∨
          (spec_inner_rect img.width scale border .bl).Mem x y then 255 else 0 := by
    simp only [style_inner_eyes, inner_eye_rect_eq_spec]
  rw [hval]
  constructor
  · split_ifs with hcond
    · simp only [corner_exists]
      simp [hcond]
    · simp only [corner_exists]
      simp [hcond]
  · intro hnot
    rw [if_neg fun hcond => hnot (corner_exists.mpr hcond)]

/-- C1 witness: at image size 210, scale 10, border 0, the pixel (45, 45)
lies in the top-left inner-eye rectangle, so the mask is 255 there. -/
theorem c1_witness :
    (style_inner_eyes ⟨210, 210, fun _ _ => (0, 0, 0)⟩ 10 0).val 45 45 = 255 :=
  ((c1_inner_eye_mask ⟨210, 210, fun _ _ => (0, 0, 0)⟩ 10 0 (by decide) (by decide)
      45 45 (by decide) (by decide) (by decide) (by decide)).1).mpr
    ⟨Corner.tl, by decide⟩

/-- C2: for every image, `scale > 0` and `border ≥ 0`, the outer-eye mask
built by `style_outer_eyes` is 255 exactly at the in-image pixels of the
three rectangles `(ax, ay, ax + 7·scale, ay + 7·scale)` anchored at
`(border_px, border_px)`, `(img_size − border_px − finder_px, border_px)`
and `(border_px, img_size − border_px − finder_px)`, and 0 at every other
in-image pixel. -/
theorem c2_outer_eye_mask (img : Img) (scale border : ℤ) (hs : 0 < scale)
    (hb : 0 ≤ border) (x y : ℤ) (hx0 : 0 ≤ x) (hx : x < img.width)
    (hy0 : 0 ≤ y) (hy : y < img.height) :
    ((style_outer_eyes img scale border).val x y = 255 ↔
      ∃ c : Corner, (spec_outer_rect img.width scale border c).Mem x y) ∧
    ((¬ ∃ c : Corner, (spec_outer_rect img.width scale border c).Mem x y) →
      (style_outer_eyes img scale border).val x y = 0) := by
  have hval : (style_outer_eyes img scale border).val x y =
      if (spec_outer_rect img.width scale border .tl).Mem x y ∨
          (spec_outer_rect img.width scale border .tr).Mem x y ∨
          (spec_outer_rect img.width scale border .bl).Mem x y then 255 else 0 := by
    simp only [style_outer_eyes, outer_eye_rect_eq_spec]
  rw [hval]
  constructor
  · split_ifs with hcond
    · simp only [corner_exists]
      simp [hcond]
    · simp only [corner_exists]
      simp [hcond]
  · intro hnot
    rw [if_neg fun hcond => hnot (corner_exists.mpr hcond)]

/-- C2 witness: at image size 210, scale 10, border 0, the pixel (150, 5)
lies in the top-right outer-eye rectangle, so the mask is 255 there. -/
theorem c2_witness :
    (style_outer_eyes ⟨210, 210, fun _ _ => (0, 0, 0)⟩ 10 0).val 150 5 = 255 :=
  ((c2_outer_eye_mask ⟨210, 210, fun _ _ => (0, 0, 0)⟩ 10 0 (by decide) (by decide)
      150 5 (by decide) (by decide) (by decide) (by decide)).1).mpr
    ⟨Corner.tr, by decide⟩

/-- C3: the final image is `select(outer where outer_mask, else
select(inner where inner_mask, else body))` — the inner composite first,
the outer composite last — so at every pixel where the outer-eye mask is
set, the final image equals the outer-eye layer. -/
theorem c3_composite_order (qr_inner_eyes_img qr_outer_eyes_img qr_img : Img)
    (scale border : ℤ) :
    final_image qr_inner_eyes_img qr_outer_eyes_img qr_img scale border =
      composite qr_outer_eyes_img
        (composite qr_inner_eyes_img qr_img (style_inner_eyes qr_img scale border))
        (style_outer_eyes qr_img scale border) ∧
    ∀ x y : ℤ, (style_outer_eyes qr_img scale border).val x y = 255 →
      (final_image qr_inner_eyes_img qr_outer_eyes_img qr_img scale border).px x y =
        qr_outer_eyes_img.px x y := by
  refine ⟨rfl, ?_⟩
  intro x y h
  simp [final_image, intermediate_img, composite, h]

/-- C3 witness: with three constant layers at scale 1, border 0, the pixel
(0, 0) is inside the top-left outer-eye rectangle, and the final image
shows the outer-eye layer there. -/
theorem c3_witness :
    (final_image ⟨21, 21, fun _ _ => (1, 1, 1)⟩ ⟨21, 21, fun _ _ => (2, 2, 2)⟩
        ⟨21, 21, fun _ _ => (3, 3, 3)⟩ 1 0).px 0 0 = (2, 2, 2) :=
  (c3_composite_order ⟨21, 21, fun _ _ => (1, 1, 1)⟩ ⟨21, 21, fun _ _ => (2, 2, 2)⟩
      ⟨21, 21, fun _ _ => (3, 3, 3)⟩ 1 0).2 0 0 (by decide)

/-- C4 counterexample: the claim's strict containment fails. At image size
21, scale 1, border 0, the point (7, 7) lies in the top-left inner-eye
rectangle (it is its bottom-right corner) but not in the interior of the
top-left outer-eye rectangle — the two rectangles share their bottom and
right edges. -/
theorem c4_counterexample :
    ¬ (∀ x y : ℤ, (inner_eye_rect 21 1 0 .tl).Mem x y →
        (outer_eye_rect 21 1 0 .tl).MemInterior x y) := by
  intro h
  exact absurd (h 7 7 (by decide)) (by decide)

/-- C4 (amended): for `scale > 0` and `border ≥ 0`, both masks have exactly
the pixel dimensions of the image they are built from, and each inner-eye
rectangle is contained in — and a proper subset of — its corresponding
outer-eye rectangle (it shares the outer rectangle's bottom-right corner,
so the containment is not strict in the interior sense). -/
theorem c4_amended (img : Img) (scale border : ℤ) (hs : 0 < scale) (hb : 0 ≤ border) :
    (style_inner_eyes img scale border).width = img.width ∧
    (style_inner_eyes img scale border).height = img.height ∧
    (style_outer_eyes img scale border).width = img.width ∧
    (style_outer_eyes img scale border).height = img.height ∧
    (∀ (c : Corner) (x y : ℤ), (inner_eye_rect img.width scale border c).Mem x y →
      (outer_eye_rect img.width scale border c).Mem x y) ∧
    (∀ c : Corner, ∃ x y : ℤ, (outer_eye_rect img.width scale border c).Mem x y ∧
      ¬ (inner_eye_rect img.width scale border c).Mem x y) := by
  refine ⟨rfl, rfl, rfl, rfl, ?_, ?_⟩
  · intro c x y hmem
    rw [inner_eye_rect_eq_spec] at hmem
    rw [outer_eye_rect_eq_spec]
    dsimp only [spec_inner_rect, spec_outer_rect, Rect.Mem] at hmem ⊢
    obtain ⟨m1, m2, m3, m4⟩ := hmem
    refine ⟨by linarith, by linarith, by linarith, by linarith⟩
  · intro c
    refine ⟨(spec_outer_anchor img.width scale border c).1,
      (spec_outer_anchor img.width scale border c).2, ?_, ?_⟩
    · rw [outer_eye_rect_eq_spec]
      dsimp only [spec_outer_rect, Rect.Mem]
      refine ⟨by linarith, by linarith, by linarith, by linarith⟩
    · rw [inner_eye_rect_eq_spec]
      dsimp only [spec_inner_rect, Rect.Mem]
      rintro ⟨hc, -, -, -⟩
      linarith

/-- C4 witness: at image size 210, scale 10, border 1, the masks are
210 × 210 and the point (50, 50) of the top-left inner-eye rectangle lies
in the top-left outer-eye rectangle. -/
theorem c4_witness :
    (style_inner_eyes ⟨210, 210, fun _ _ => (0, 0, 0)⟩ 10 1).width = 210 ∧
    (outer_eye_rect 210 10 1 Corner.tl).Mem 50 50 :=
  ⟨(c4_amended ⟨210, 210, fun _ _ => (0, 0, 0)⟩ 10 1 (by decide) (by decide)).1,
    (c4_amended ⟨210, 210, fun _ _ => (0, 0, 0)⟩ 10 1 (by decide) (by decide)).2.2.2.2.1
      Corner.tl 50 50 (by decide)⟩

/-- C5: for every valid `#RRGGBB` string (a `'#'` followed by exactly six
hex digits), `hex_to_rgb` returns the triple of the three consecutive
hex-digit pair values. -/
theorem c5_hex_to_rgb_valid (c1 c2 c3 c4 c5 c6 : Char) (v1 v2 v3 v4 v5 v6 : ℕ)
    (h1 : hexDigit? c1 = some v1) (h2 : hexDigit? c2 = some v2)
    (h3 : hexDigit? c3 = some v3) (h4 : hexDigit? c4 = some v4)
    (h5 : hexDigit? c5 = some v5) (h6 : hexDigit? c6 = some v6) :
    hex_to_rgb ('#' :: [c1, c2, c3, c4, c5, c6]) =
      some (((16 * v1 + v2 : ℕ) : ℤ), ((16 * v3 + v4 : ℕ) : ℤ), ((16 * v5 + v6 : ℕ) : ℤ)) :=
  hex_to_rgb_general ['#'] [] c1 c2 c3 c4 c5 c6 v1 v2 v3 v4 v5 v6
    (by simp) h1 h2 h3 h4 h5 h6

/-- C5 witness: `hex_to_rgb '#0047BA' = (0, 71, 186)`. -/
theorem c5_witness :
    hex_to_rgb ['#', '0', '0', '4', '7', 'B', 'A'] = some (0, 71, 186) :=
  c5_hex_to_rgb_valid '0' '0' '4' '7' 'B' 'A' 0 0 4 7 11 10
    (by decide) (by decide) (by decide) (by decide) (by decide) (by decide)

/-- C6 counterexample: the malformed string `'#00471'` — five hex digits,
not six — does not fail: `int('1', 16)` accepts the one-character third
slice, so `hex_to_rgb` returns `(0, 71, 1)` and `generate` goes on to
render. -/
theorem c6_counterexample :
    hex_to_rgb ['#', '0', '0', '4', '7', '1'] = some (0, 71, 1) ∧
    (generateModel ['#', '0', '0', '4', '7', '1'] ['#', '0', '0', 'C', 'E', '7', 'C']
        none true).rendered = true := by
  constructor
  · decide
  · decide

/-- C6 (amended): colour parsing fails with `ValueError` whenever the
string has at most four characters after stripping leading `'#'`s (the
third slice is then empty), and on such a failure `generate` reports the
invalid-colour error and performs no rendering. Not every malformed string
is rejected: five-hex-digit strings and strings with trailing garbage
after six leading hex digits parse successfully. -/
theorem c6_amended (primary secondary : List Char)
    (hlen : (primary.dropWhile (fun c => c == '#')).length ≤ 4) :
    hex_to_rgb primary = none ∧
    (generateModel primary secondary none true).rendered = false ∧
    (generateModel primary secondary none true).errMsg = some invalidColorMsg ∧
    (generateModel primary secondary none true).exitCode = 0 := by
  have hdrop : (primary.dropWhile (fun c => c == '#')).drop 4 = [] :=
    List.drop_eq_nil_of_le hlen
  have h3 : pyIntHex (pySlice (primary.dropWhile (fun c => c == '#')) 4 6) = none := by
    simp [pySlice, hdrop, pyIntHex, stripWs, pyIntHexCore, parseHexBody, parseHexRun]
  have hp : hex_to_rgb primary = none := by
    rcases e1 : pyIntHex (pySlice (primary.dropWhile (fun c => c == '#')) 0 2) with _ | r <;>
      rcases e2 : pyIntHex (pySlice (primary.dropWhile (fun c => c == '#')) 2 4) with _ | g <;>
        simp [hex_to_rgb, e1, e2, h3]
  refine ⟨hp, ?_, ?_, ?_⟩ <;>
    rcases e4 : hex_to_rgb secondary with _ | q <;>
      simp [generateModel, hp, e4]

/-- C6 witness: `'#0047'` (four hex digits) fails to parse, and `generate`
reports the error without rendering. -/
theorem c6_witness :
    hex_to_rgb ['#', '0', '0', '4', '7'] = none ∧
    (generateModel ['#', '0', '0', '4', '7'] ['#', '0', '0', 'C', 'E', '7', 'C']
        none true).rendered = false :=
  ⟨(c6_amended ['#', '0', '0', '4', '7'] ['#', '0', '0', 'C', 'E', '7', 'C']
      (by decide)).1,
    (c6_amended ['#', '0', '0', '4', '7'] ['#', '0', '0', 'C', 'E', '7', 'C']
      (by decide)).2.1⟩

/-- C7: at the failing input (invalid primary colour `'#GG0000'`, no logo,
writable output) `generate` echoes the invalid-colour error to stderr but
then returns normally, so the process exits with status 0 — not the
non-zero exit the claim requires. The other two failure modes do exit
non-zero (status 2 from the click path check, status 1 from the uncaught
save exception). -/
theorem c7_invalid_color_exits_zero :
    (generateModel ['#', 'G', 'G', '0', '0', '0', '0'] ['#', '0', '0', 'C', 'E', '7', 'C']
        none true).errMsg = some invalidColorMsg ∧
    (generateModel ['#', 'G', 'G', '0', '0', '0', '0'] ['#', '0', '0', 'C', 'E', '7', 'C']
        none true).exitCode = 0 ∧
    (generateModel ['#', '0', '0', '4', '7', 'B', 'A'] ['#', '0', '0', 'C', 'E', '7', 'C']
        (some false) true).exitCode = 2 ∧
    (generateModel ['#', '0', '0', '4', '7', 'B', 'A'] ['#', '0', '0', 'C', 'E', '7', 'C']
        none false).exitCode = 1 := by
  refine ⟨?_, ?_, ?_, ?_⟩ <;> decide

/-- C8 counterexample: with no existing directories and output path
`newdir/qr.png`, `generate`'s only filesystem operation — the single
`final_image.save` — fails instead of creating `newdir` and writing the
image, because nothing in `generate` creates directories. -/
theorem c8_counterexample :
    generate_fs ⟨[], []⟩ ["newdir", "qr.png"] = none := by
  decide

/-- C8 (amended): `generate` never creates directories; when the output
path's parent directory does not exist the save fails (an uncaught
`FileNotFoundError`, so no file is written), and any successful run leaves
the set of directories unchanged. -/
theorem c8_amended (st : FsState) (output : List String) :
    (output.dropLast ≠ [] → output.dropLast ∉ st.dirs → generate_fs st output = none) ∧
    (∀ st' : FsState, generate_fs st output = some st' → st'.dirs = st.dirs) := by
  constructor
  · intro h1 h2
    simp [generate_fs, pil_save, h1, h2]
  · intro st' h
    unfold generate_fs pil_save at h
    split at h
    · injection h with h2
      rw [← h2]
    · cases h

/-- C8 witness: saving to `b/out.png` when only directory `a` exists fails. -/
theorem c8_witness :
    generate_fs ⟨[["a"]], []⟩ ["b", "out.png"] = none :=
  (c8_amended ⟨[["a"]], []⟩ ["b", "out.png"]).1 (by decide) (by decide)

/-- C9: the mask builders are pure functions of the image dimensions,
scale and border: two input images of identical pixel dimensions but
arbitrary different pixel contents yield identical inner-eye and
outer-eye masks. -/
theorem c9_masks_pure (img1 img2 : Img) (scale border : ℤ)
    (hw : img1.width = img2.width) (hh : img1.height = img2.height) :
    style_inner_eyes img1 scale border = style_inner_eyes img2 scale border ∧
    style_outer_eyes img1 scale border = style_outer_eyes img2 scale border := by
  cases img1
  cases img2
  dsimp at hw hh
  subst hw
  subst hh
  exact ⟨rfl, rfl⟩

/-- C9 witness: a constant black image and an image with coordinate-derived
pixels, both 210 × 210, produce the same inner-eye mask. -/
theorem c9_witness :
    style_inner_eyes ⟨210, 210, fun _ _ => (0, 0, 0)⟩ 10 2 =
      style_inner_eyes ⟨210, 210, fun x y => (x.natAbs, y.natAbs, 7)⟩ 10 2 :=
  (c9_masks_pure ⟨210, 210, fun _ _ => (0, 0, 0)⟩
    ⟨210, 210, fun x y => (x.natAbs, y.natAbs, 7)⟩ 10 2 rfl rfl).1

/-- C10: `hex_to_rgb` strips every leading `'#'` (not just one) and reads
only the first six remaining characters, ignoring any tail: any string of
leading `'#'`s, then six hex digits, then arbitrary trailing characters
decodes to the triple of the three digit pairs. -/
theorem c10_hex_to_rgb_lenient (pre tail : List Char) (c1 c2 c3 c4 c5 c6 : Char)
    (v1 v2 v3 v4 v5 v6 : ℕ) (hpre : ∀ c ∈ pre, c = '#')
    (h1 : hexDigit? c1 = some v1) (h2 : hexDigit? c2 = some v2)
    (h3 : hexDigit? c3 = some v3) (h4 : hexDigit? c4 = some v4)
    (h5 : hexDigit? c5 = some v5) (h6 : hexDigit? c6 = some v6) :
    hex_to_rgb (pre ++ c1 :: c2 :: c3 :: c4 :: c5 :: c6 :: tail) =
      some (((16 * v1 + v2 : ℕ) : ℤ), ((16 * v3 + v4 : ℕ) : ℤ), ((16 * v5 + v6 : ℕ) : ℤ)) :=
  hex_to_rgb_general pre tail c1 c2 c3 c4 c5 c6 v1 v2 v3 v4 v5 v6 hpre h1 h2 h3 h4 h5 h6

/-- C10 witness: `hex_to_rgb '##0047BAFF' = (0, 71, 186)`. -/
theorem c10_witness :
    hex_to_rgb ['#', '#', '0', '0', '4', '7', 'B', 'A', 'F', 'F'] = some (0, 71, 186) :=
  c10_hex_to_rgb_lenient ['#', '#'] ['F', 'F'] '0' '0' '4' '7' 'B' 'A' 0 0 4 7 11 10
    (by decide) (by decide) (by decide) (by decide) (by decide) (by decide) (by decide)

end QrGenCli
